import Mathlib

/-!
Shallow embedding of `b2_storage/backblaze_b2.py`, a Backblaze B2 HTTP client.

Effects are modelled by explicit state passing: a `World` carries the client
object's mutable fields, per-endpoint request counters and a log of the HTTP
requests issued so far.  The remote service is an oracle (`Service`) giving
the response to the n-th request of each kind.  Library primitives the module
calls (`hashlib.sha1(...).hexdigest()`, `base64.b64encode`) are parameters
bundled in `Crypto`.  `requests.Response.raise_for_status` raises exactly for
status codes in [400, 600); services return codes below 600, so success is
modelled as `status < 400`.  A raised `requests.exceptions.HTTPError` is the
`.error` case of `Except`, carrying the response status and text.
-/

/-- Module constant `B2_BASE`. -/
def B2_BASE : String := "https://api.backblazeb2.com/b2api/v2"

/-- Module constant `AUTHORIZE_URL = f'{B2_BASE}/b2_authorize_account'`. -/
def AUTHORIZE_URL : String := B2_BASE ++ "/b2_authorize_account"

/-- Module constant for the fixed API path prefix `/b2api/v2/`. -/
def B2_API_PREFIX : String := "/b2api/v2/"

/-- Module constant `B2_USER_AGENT_DEFAULT`. -/
def B2_USER_AGENT_DEFAULT : String := "django-backblazeb2-storage/v2"

/-- Module constant `AUTHORIZATION_BUFFER_DEFAULT` (1 hour, in seconds). -/
def AUTHORIZATION_BUFFER_DEFAULT : Nat := 3600

/-- The mutable attributes of a `BackBlazeB2` instance.  The session fields
`base_url`, `download_url`, `authorization_token`, `authorized_at` are unset
before the first `authorize` succeeds; they are modelled as `""` / `0` then. -/
structure Client where
  key_id : String
  app_key : String
  bucket_id : String
  bucket_name : String
  reauthorization_buffer : Nat
  user_agent : String
  base_url : String
  download_url : String
  authorization_token : String
  authorized_at : Nat
deriving Repr, DecidableEq

/-- A raised `requests.exceptions.HTTPError`: `e.response.status_code` and
`e.response.text`. -/
structure HTTPError where
  status : Nat
  text : String
deriving Repr, DecidableEq

/-- Response of the `b2_authorize_account` endpoint: HTTP status plus the JSON
fields `authorize` reads on success. -/
structure AuthResp where
  status : Nat
  apiUrl : String
  downloadUrl : String
  authorizationToken : String
  text : String
deriving Repr, DecidableEq

/-- Response of the `b2_get_upload_url` endpoint: HTTP status plus the JSON
fields `upload_file` reads from the ticket. -/
structure TicketResp where
  status : Nat
  uploadUrl : String
  authorizationToken : String
  text : String
deriving Repr, DecidableEq

/-- A generic HTTP response: status and decoded body / text. -/
structure BasicResp where
  status : Nat
  body : String
deriving Repr, DecidableEq

/-- The upload ticket `{uploadUrl, authorizationToken}` returned decoded by
`get_upload_url`. -/
structure Ticket where
  uploadUrl : String
  authorizationToken : String
deriving Repr, DecidableEq

/-- The remote service as an oracle: the response to the n-th request of each
kind (counted separately per endpoint). -/
structure Service where
  auth : Nat → AuthResp
  ticket : Nat → TicketResp
  upload : Nat → BasicResp
  info : Nat → BasicResp
  download : Nat → BasicResp
  delete : Nat → BasicResp

/-- Library primitives used by the module: `hashlib.sha1(bytes).hexdigest()`
and `base64.b64encode(str.encode()).decode()`. -/
structure Crypto where
  sha1hex : List Nat → String
  b64 : String → String

/-- Kind of an HTTP request issued by the client. -/
inductive ReqKind where
  | auth
  | ticket
  | uploadPost
  | fileInfo
  | fileDownload
  | deleteVersion
deriving Repr, DecidableEq

/-- An HTTP request as issued by the client: its kind, the `Authorization`
header, the target URL, and (for upload POSTs) the `X-Bz-Content-Sha1`
header and the body bytes sent. -/
structure Request where
  kind : ReqKind
  authHeader : String
  url : String
  params : List (String × String) := []
  fileName : String := ""
  sha1 : String := ""
  body : List Nat := []
deriving Repr, DecidableEq

/-- A seekable readable stream: the `content` argument of `upload_file`.
`read()` returns everything from the current position and leaves the position
at the end; `seek(0)` resets the position. -/
structure BStream where
  data : List Nat
  pos : Nat
deriving Repr, DecidableEq

/-- `content.read()`: the bytes from the current position to the end, and the
stream afterwards. -/
def BStream.read (s : BStream) : List Nat × BStream :=
  (s.data.drop s.pos, { s with pos := s.data.length })

/-- `content.seek(0)`. -/
def BStream.seek0 (s : BStream) : BStream :=
  { s with pos := 0 }

/-- The full mutable state threaded through the operations: the client
instance, a clock (for `datetime.now()`), per-endpoint request counters used
to index the service oracle, and the log of requests issued so far. -/
structure World where
  client : Client
  time : Nat
  nAuth : Nat
  nTicket : Nat
  nUpload : Nat
  nInfo : Nat
  nDownload : Nat
  nDelete : Nat
  log : List Request
deriving Repr

/-- `self.get_file_url(name)` — pure string concatenation
`f'{self.download_url}/file/{self.bucket_name}/{name}'`. -/
def get_file_url (c : Client) (name : String) : String :=
  c.download_url ++ "/file/" ++ c.bucket_name ++ "/" ++ name

/-- `self._build_url(endpoint)` — pure string concatenation
`f'{self.base_url}{B2_API_PREFIX}{endpoint}'`. -/
def _build_url (c : Client) (endpoint : String) : String :=
  c.base_url ++ B2_API_PREFIX ++ endpoint

/-- The request `authorize` issues: Basic auth against the fixed
authorization URL. -/
def authRequestOf (crypto : Crypto) (w : World) : Request :=
  { kind := .auth,
    authHeader := "Basic " ++ crypto.b64 (w.client.key_id ++ ":" ++ w.client.app_key),
    url := AUTHORIZE_URL }

/-- `self.authorize()`: GET the authorization endpoint with Basic credentials;
`raise_for_status()`; on success replace the whole session (`base_url`,
`download_url`, `authorization_token`, `authorized_at`) from the response. -/
def authorize (crypto : Crypto) (svc : Service) (w : World) :
    World × Except HTTPError Unit :=
  let r := svc.auth w.nAuth
  let w1 : World :=
    { w with nAuth := w.nAuth + 1, log := w.log ++ [authRequestOf crypto w] }
  if r.status < 400 then
    ({ w1 with client :=
        { w1.client with
          base_url := r.apiUrl
          download_url := r.downloadUrl
          authorization_token := r.authorizationToken
          authorized_at := w1.time } }, .ok ())
  else
    (w1, .error ⟨r.status, r.text⟩)

/-- `self.get_upload_url()`: re-authorize, then GET `b2_get_upload_url` with
the session token; `raise_for_status()`; return the decoded upload ticket. -/
def get_upload_url (crypto : Crypto) (svc : Service) (w : World) :
    World × Except HTTPError Ticket :=
  match authorize crypto svc w with
  | (w1, .error e) => (w1, .error e)
  | (w1, .ok _) =>
    let r := svc.ticket w1.nTicket
    let w2 : World :=
      { w1 with
        nTicket := w1.nTicket + 1
        log := w1.log ++
          [{ kind := .ticket
             authHeader := w1.client.authorization_token
             url := _build_url w1.client "b2_get_upload_url"
             params := [("bucketId", w1.client.bucket_id)] }] }
    if r.status < 400 then
      (w2, .ok ⟨r.uploadUrl, r.authorizationToken⟩)
    else
      (w2, .error ⟨r.status, r.text⟩)

/-- `self.upload_file(name, content, i=1, max_attempts=3)`: get a fresh upload
ticket, hash the stream, seek to 0, POST the bytes; on a 4xx/5xx status
intercept the error, and when the status is 401 or 503 and `i < max_attempts`
re-authorize, seek to 0 and recurse with `i+1` — the recursive call omits
`max_attempts`, so it uses the default 3, exactly as the source does. -/
def upload_file (crypto : Crypto) (svc : Service) (name : String)
    (content : BStream) (w : World) (i : Nat := 1) (max_attempts : Nat := 3) :
    World × Except HTTPError String :=
  match get_upload_url crypto svc w with
  | (w1, .error e) => (w1, .error e)
  | (w1, .ok ticket) =>
    let rd := content.read
    let sha1 := crypto.sha1hex rd.1
    let content1 := rd.2.seek0
    let sent := content1.read
    let r := svc.upload w1.nUpload
    let w2 : World :=
      { w1 with
        nUpload := w1.nUpload + 1
        log := w1.log ++
          [{ kind := .uploadPost
             authHeader := ticket.authorizationToken
             url := ticket.uploadUrl
             fileName := name
             sha1 := sha1
             body := sent.1 }] }
    if r.status < 400 then
      (w2, .ok r.body)
    else if h : (r.status = 401 ∨ r.status = 503) ∧ i < max_attempts then
      match authorize crypto svc w2 with
      | (w3, .error e) => (w3, .error e)
      | (w3, .ok _) => upload_file crypto svc name (sent.2.seek0) w3 (i + 1)
    else
      (w2, .error ⟨r.status, r.body⟩)
termination_by max max_attempts 3 - i
decreasing_by
  cases Nat.le_total max_attempts 3 with
  | inl h3 => simp only [Nat.max_eq_right h3, Nat.max_self]; omega
  | inr h3 => simp only [Nat.max_eq_left h3, Nat.max_self]; omega

/-- `self.get_file_info(file_id)`: re-authorize, GET `b2_get_file_info` with
the session token; `raise_for_status()`; return the raw response. -/
def get_file_info (crypto : Crypto) (svc : Service) (file_id : String)
    (w : World) : World × Except HTTPError BasicResp :=
  match authorize crypto svc w with
  | (w1, .error e) => (w1, .error e)
  | (w1, .ok _) =>
    let r := svc.info w1.nInfo
    let w2 : World :=
      { w1 with
        nInfo := w1.nInfo + 1
        log := w1.log ++
          [{ kind := .fileInfo
             authHeader := w1.client.authorization_token
             url := _build_url w1.client "b2_get_file_info"
             params := [("fileId", file_id)] }] }
    if r.status < 400 then (w2, .ok r)
    else (w2, .error ⟨r.status, r.body⟩)

/-- `self.download_file(name)`: re-authorize, GET the public file URL with the
session token; `raise_for_status()`; return the response content. -/
def download_file (crypto : Crypto) (svc : Service) (name : String)
    (w : World) : World × Except HTTPError String :=
  match authorize crypto svc w with
  | (w1, .error e) => (w1, .error e)
  | (w1, .ok _) =>
    let r := svc.download w1.nDownload
    let w2 : World :=
      { w1 with
        nDownload := w1.nDownload + 1
        log := w1.log ++
          [{ kind := .fileDownload
             authHeader := w1.client.authorization_token
             url := get_file_url w1.client name }] }
    if r.status < 400 then (w2, .ok r.body)
    else (w2, .error ⟨r.status, r.body⟩)

/-- `self.delete_file_version(filename, file_id)`: re-authorize, GET
`b2_delete_file_version` with the session token; `raise_for_status()`;
return the raw response. -/
def delete_file_version (crypto : Crypto) (svc : Service)
    (filename file_id : String) (w : World) :
    World × Except HTTPError BasicResp :=
  match authorize crypto svc w with
  | (w1, .error e) => (w1, .error e)
  | (w1, .ok _) =>
    let r := svc.delete w1.nDelete
    let w2 : World :=
      { w1 with
        nDelete := w1.nDelete + 1
        log := w1.log ++
          [{ kind := .deleteVersion
             authHeader := w1.client.authorization_token
             url := _build_url w1.client "b2_delete_file_version"
             params := [("fileId", file_id), ("fileName", filename)] }] }
    if r.status < 400 then (w2, .ok r)
    else (w2, .error ⟨r.status, r.body⟩)

/-- `BackBlazeB2.__init__`: store the construction parameters, then call
`authorize()` (whose failure propagates out of the constructor). -/
def init (crypto : Crypto) (svc : Service) (key_id app_key bucket_id
    bucket_name : String) (reauthorization_buffer : Nat)
    (user_agent : String) : World × Except HTTPError Unit :=
  let c : Client :=
    { key_id := key_id, app_key := app_key, bucket_id := bucket_id
      bucket_name := bucket_name
      reauthorization_buffer := reauthorization_buffer
      user_agent := user_agent
      base_url := "", download_url := "", authorization_token := ""
      authorized_at := 0 }
  authorize crypto svc
    { client := c, time := 0, nAuth := 0, nTicket := 0, nUpload := 0
      nInfo := 0, nDownload := 0, nDelete := 0, log := [] }

/-! ### Concrete fixtures used to evaluate the model -/

/-- A concrete stand-in for the hash and base64 primitives, used when the
model is run on concrete inputs. -/
def cryptoD : Crypto :=
  { sha1hex := fun bs => "sha1." ++ toString bs
    b64 := fun s => "b64." ++ s }

/-- A concrete client object in the state it has after a successful
construction-time authorization. -/
def clientD : Client :=
  { key_id := "key", app_key := "secret", bucket_id := "bid"
    bucket_name := "bkt"
    reauthorization_buffer := AUTHORIZATION_BUFFER_DEFAULT
    user_agent := B2_USER_AGENT_DEFAULT
    base_url := "https://api000.backblazeb2.com"
    download_url := "https://f000.backblazeb2.com"
    authorization_token := "tok0", authorized_at := 0 }

/-- A fresh world holding `clientD`, with no requests issued yet. -/
def worldD : World :=
  { client := clientD, time := 0, nAuth := 0, nTicket := 0, nUpload := 0
    nInfo := 0, nDownload := 0, nDelete := 0, log := [] }

/-- A successful authorization response. -/
def authOK : AuthResp := ⟨200, "https://apiX", "https://dlX", "tokX", ""⟩

/-- A successful upload-ticket response. -/
def ticketOK : TicketResp := ⟨200, "https://upX", "utokX", ""⟩

/-- A service whose auth, ticket, info, download and delete endpoints always
succeed, and whose upload endpoint answers according to `u`. -/
def svcAll (u : Nat → BasicResp) : Service :=
  { auth := fun _ => authOK, ticket := fun _ => ticketOK, upload := u
    info := fun _ => ⟨200, "info"⟩, download := fun _ => ⟨200, "data"⟩
    delete := fun _ => ⟨200, "del"⟩ }

/-- A service answering every upload POST with 401. -/
def svc401 : Service := svcAll fun _ => ⟨401, "unauthorized"⟩

/-- A service answering every upload POST with 503. -/
def svc503 : Service := svcAll fun _ => ⟨503, "busy"⟩

/-- A service answering the first upload POST with 401 and every later one
with 200. -/
def svcRetryOnce : Service :=
  svcAll fun n => if n = 0 then ⟨401, "unauthorized"⟩ else ⟨200, "uploaded"⟩

/-- A service answering the first upload POST with status `s` and every later
one with 200. -/
def svcFirst (s : Nat) : Service :=
  svcAll fun n => if n = 0 then ⟨s, "err"⟩ else ⟨200, "ok2"⟩

/-- A concrete two-byte stream positioned at offset 0. -/
def streamD : BStream := ⟨[104, 105], 0⟩

/-! ### Claim theorems -/

/-- C7: for every client state and name, `get_file_url name` is the plain
concatenation `{download_url}/file/{bucket_name}/{name}` with no escaping of
special characters; with bucket name "bkt" and file name "a b.txt" the result
ends in "/file/bkt/a b.txt". -/
theorem get_file_url_spec :
    (∀ c name, get_file_url c name =
      c.download_url ++ "/file/" ++ c.bucket_name ++ "/" ++ name) ∧
    get_file_url clientD "a b.txt" =
      "https://f000.backblazeb2.com/file/bkt/a b.txt" ∧
    get_file_url clientD "a b.txt" =
      "https://f000.backblazeb2.com" ++ "/file/bkt/a b.txt" :=
  ⟨fun _ _ => rfl, by decide, by decide⟩

/-- C8: `_build_url` concatenates the stored API base URL, the fixed prefix
`/b2api/v2/` and the endpoint name; in particular
`_build_url "b2_get_file_info" = {base_url}/b2api/v2/b2_get_file_info`. -/
theorem build_url_spec :
    (∀ c endpoint, _build_url c endpoint =
      c.base_url ++ B2_API_PREFIX ++ endpoint) ∧
    (∀ c, _build_url c "b2_get_file_info" =
      c.base_url ++ "/b2api/v2/b2_get_file_info") :=
  ⟨fun _ _ => rfl, fun c => by
    show c.base_url ++ "/b2api/v2/" ++ "b2_get_file_info" = _
    rw [String.append_assoc]; rfl⟩

/-- C10: the recursive retry call inside `upload_file` passes `i + 1` but
omits `max_attempts`, so retried invocations use the default limit 3: with a
caller-supplied `max_attempts = 2` and a service answering 401 to every
upload POST, `upload_file` performs three upload POSTs — one more than the
caller's limit — before raising the 401 error. -/
theorem retry_uses_default_max_attempts :
    (upload_file cryptoD svc401 "f.txt" streamD worldD 1 2).1.nUpload = 3 ∧
    (upload_file cryptoD svc401 "f.txt" streamD worldD 1 2).2 =
      .error ⟨401, "unauthorized"⟩ := by
  constructor <;>
    simp [upload_file, get_upload_url, authorize, svc401, svcAll, authOK,
      ticketOK, cryptoD, worldD, clientD, streamD, BStream.read,
      BStream.seek0, authRequestOf]

/-- C1 fails on the code: with caller-supplied `max_attempts = 2` and a
service answering 503 to every upload POST, `upload_file` performs three
upload POSTs, exceeding the claimed `max_attempts` bound of 2.  The claim's
`max_attempts = 1` sub-case does hold: a 401 on the first attempt raises the
error after exactly one POST, with no retry. -/
theorem upload_exceeds_max_attempts :
    ((upload_file cryptoD svc503 "f.txt" streamD worldD 1 2).1.nUpload = 3 ∧
      ¬(upload_file cryptoD svc503 "f.txt" streamD worldD 1 2).1.nUpload ≤ 2) ∧
    ((upload_file cryptoD svc401 "g.txt" streamD worldD 1 1).1.nUpload = 1 ∧
      (upload_file cryptoD svc401 "g.txt" streamD worldD 1 1).2 =
        .error ⟨401, "unauthorized"⟩) := by
  refine ⟨⟨?_, ?_⟩, ?_, ?_⟩ <;>
    simp [upload_file, get_upload_url, authorize, svc503, svc401, svcAll,
      authOK, ticketOK, cryptoD, worldD, clientD, streamD, BStream.read,
      BStream.seek0, authRequestOf]

/-- C2 counterexample: with a service answering 401 to the first upload POST
and 200 to the second, `upload_file` on a fresh world returns the 200 body
but performs three authorize calls during the invocation, not two. -/
theorem upload_retry_authorize_count_not_two :
    (upload_file cryptoD svcRetryOnce "f.txt" streamD worldD).2 =
      .ok "uploaded" ∧
    (upload_file cryptoD svcRetryOnce "f.txt" streamD worldD).1.nAuth = 3 ∧
    ¬(upload_file cryptoD svcRetryOnce "f.txt" streamD worldD).1.nAuth = 2 := by
  refine ⟨?_, ?_, ?_⟩ <;>
    simp [upload_file, get_upload_url, authorize, svcRetryOnce, svcAll,
      authOK, ticketOK, cryptoD, worldD, clientD, streamD, BStream.read,
      BStream.seek0, authRequestOf]

/-- C2 amended: when the service answers 401 to the first upload POST and 200
to the second (authorization and ticket requests succeeding throughout),
`upload_file` returns the decoded body of the 200 response, and exactly three
authorize calls occur during the invocation: one in the initial
`get_upload_url`, one in the retry handler, and one in the retry's
`get_upload_url`. -/
theorem upload_retry_three_authorize_calls (crypto : Crypto) (c : Client)
    (name : String) (content : BStream) :
    (upload_file crypto svcRetryOnce name content
        { client := c, time := 0, nAuth := 0, nTicket := 0, nUpload := 0
          nInfo := 0, nDownload := 0, nDelete := 0, log := [] }).2 =
      .ok "uploaded" ∧
    (upload_file crypto svcRetryOnce name content
        { client := c, time := 0, nAuth := 0, nTicket := 0, nUpload := 0
          nInfo := 0, nDownload := 0, nDelete := 0, log := [] }).1.nAuth =
      3 := by
  constructor <;>
    simp [upload_file, get_upload_url, authorize, svcRetryOnce, svcAll,
      authOK, ticketOK, BStream.read, BStream.seek0, authRequestOf]

/-! ### Log bookkeeping helpers -/

/-- Lookup of the first element appended after a prefix `l`. -/
theorem log_lookup_here {α : Type} (l : List α) (a : α) (t : List α) :
    (l ++ a :: t)[l.length]? = some a := by
  rw [List.getElem?_append_right (Nat.le_refl _), Nat.sub_self]; simp

/-- Lookup of the second element appended after a prefix `l`. -/
theorem log_lookup_next {α : Type} (l : List α) (a b : α) (t : List α) :
    (l ++ a :: b :: t)[l.length + 1]? = some b := by
  rw [List.getElem?_append_right (by omega : l.length ≤ l.length + 1)]
  have h1 : l.length + 1 - l.length = 1 := by omega
  rw [h1]; simp

/-- Lookup past the end when only one element was appended. -/
theorem log_lookup_none {α : Type} (l : List α) (a : α) :
    (l ++ [a])[l.length + 1]? = none := by
  apply List.getElem?_eq_none
  simp

/-- `authorize` always appends exactly its own request to the log. -/
theorem authorize_log (crypto : Crypto) (svc : Service) (w : World) :
    (authorize crypto svc w).1.log = w.log ++ [authRequestOf crypto w] := by
  simp only [authorize]
  split <;> rfl

/-- C3: a call to `authorize` either replaces all three session fields
(together with the acquisition timestamp) from the single authorization
response, or — when the response status signals failure — leaves the client
object, and in particular the session triple, entirely unchanged; the session
is never partially updated. -/
theorem authorize_session_atomic (crypto : Crypto) (svc : Service)
    (w : World) :
    (authorize crypto svc w).1.client =
      (if (svc.auth w.nAuth).status < 400 then
        { w.client with
          base_url := (svc.auth w.nAuth).apiUrl
          download_url := (svc.auth w.nAuth).downloadUrl
          authorization_token := (svc.auth w.nAuth).authorizationToken
          authorized_at := w.time }
      else w.client) := by
  simp only [authorize]
  split <;> rfl

/-- Full log effect of `get_upload_url`: the authorize request, then — when
authorization succeeded — the ticket request carrying the fresh token. -/
theorem get_upload_url_log (crypto : Crypto) (svc : Service) (w : World) :
    (get_upload_url crypto svc w).1.log =
      w.log ++ authRequestOf crypto w ::
        (if (svc.auth w.nAuth).status < 400 then
          [{ kind := .ticket
             authHeader := (svc.auth w.nAuth).authorizationToken
             url := (svc.auth w.nAuth).apiUrl ++ B2_API_PREFIX ++
               "b2_get_upload_url"
             params := [("bucketId", w.client.bucket_id)] }]
        else []) := by
  by_cases hA : (svc.auth w.nAuth).status < 400
  · by_cases hT : (svc.ticket w.nTicket).status < 400 <;>
      simp [get_upload_url, authorize, _build_url, authRequestOf, hA, hT]
  · simp [get_upload_url, authorize, _build_url, authRequestOf, hA]

/-- Full log effect of `get_file_info`. -/
theorem get_file_info_log (crypto : Crypto) (svc : Service)
    (file_id : String) (w : World) :
    (get_file_info crypto svc file_id w).1.log =
      w.log ++ authRequestOf crypto w ::
        (if (svc.auth w.nAuth).status < 400 then
          [{ kind := .fileInfo
             authHeader := (svc.auth w.nAuth).authorizationToken
             url := (svc.auth w.nAuth).apiUrl ++ B2_API_PREFIX ++
               "b2_get_file_info"
             params := [("fileId", file_id)] }]
        else []) := by
  by_cases hA : (svc.auth w.nAuth).status < 400
  · by_cases hT : (svc.info w.nInfo).status < 400 <;>
      simp [get_file_info, authorize, _build_url, authRequestOf, hA, hT]
  · simp [get_file_info, authorize, _build_url, authRequestOf, hA]

/-- Full log effect of `download_file`. -/
theorem download_file_log (crypto : Crypto) (svc : Service) (name : String)
    (w : World) :
    (download_file crypto svc name w).1.log =
      w.log ++ authRequestOf crypto w ::
        (if (svc.auth w.nAuth).status < 400 then
          [{ kind := .fileDownload
             authHeader := (svc.auth w.nAuth).authorizationToken
             url := (svc.auth w.nAuth).downloadUrl ++ "/file/" ++
               w.client.bucket_name ++ "/" ++ name }]
        else []) := by
  by_cases hA : (svc.auth w.nAuth).status < 400
  · by_cases hT : (svc.download w.nDownload).status < 400 <;>
      simp [download_file, authorize, get_file_url, authRequestOf, hA, hT]
  · simp [download_file, authorize, get_file_url, authRequestOf, hA]

/-- Full log effect of `delete_file_version`. -/
theorem delete_file_version_log (crypto : Crypto) (svc : Service)
    (filename file_id : String) (w : World) :
    (delete_file_version crypto svc filename file_id w).1.log =
      w.log ++ authRequestOf crypto w ::
        (if (svc.auth w.nAuth).status < 400 then
          [{ kind := .deleteVersion
             authHeader := (svc.auth w.nAuth).authorizationToken
             url := (svc.auth w.nAuth).apiUrl ++ B2_API_PREFIX ++
               "b2_delete_file_version"
             params := [("fileId", file_id), ("fileName", filename)] }]
        else []) := by
  by_cases hA : (svc.auth w.nAuth).status < 400
  · by_cases hT : (svc.delete w.nDelete).status < 400 <;>
      simp [delete_file_version, authorize, _build_url, authRequestOf, hA, hT]
  · simp [delete_file_version, authorize, _build_url, authRequestOf, hA]

/-- Transitivity of "extends the log". -/
theorem log_ext_step {base mid fin : List Request}
    (h1 : ∃ t, mid = base ++ t) (h2 : ∃ t, fin = mid ++ t) :
    ∃ t, fin = base ++ t := by
  obtain ⟨a, ha⟩ := h1
  obtain ⟨b, hb⟩ := h2
  exact ⟨a ++ b, by rw [hb, ha, List.append_assoc]⟩

/-- Appending extends the log. -/
theorem log_ext_app (l t : List Request) : ∃ u, l ++ t = l ++ u := ⟨t, rfl⟩

/-- Fuel-indexed form of "`upload_file` only appends to the log". -/
theorem upload_file_fuel (crypto : Crypto) (svc : Service) (name : String) :
    ∀ (k : Nat) (content : BStream) (w : World) (i m : Nat),
      max m 3 - i ≤ k →
      ∃ t, (upload_file crypto svc name content w i m).1.log = w.log ++ t := by
  intro k
  induction k with
  | zero =>
    intro content w i m hk
    rcases hres : get_upload_url crypto svc w with ⟨w1, res⟩
    have ht0 : ∃ t0, w1.log = w.log ++ t0 := by
      have h2 := get_upload_url_log crypto svc w
      rw [hres] at h2
      exact ⟨_, h2⟩
    rw [upload_file.eq_def crypto svc name content w i m, hres]
    cases res with
    | error e => exact ht0
    | ok ticket =>
      simp only [BStream.read, BStream.seek0]
      by_cases hup : (svc.upload w1.nUpload).status < 400
      · rw [if_pos hup]
        exact log_ext_step ht0 (log_ext_app _ _)
      · rw [if_neg hup]
        have hc : ¬ (((svc.upload w1.nUpload).status = 401 ∨
            (svc.upload w1.nUpload).status = 503) ∧ i < m) := by
          intro hcc
          omega
        rw [dif_neg hc]
        exact log_ext_step ht0 (log_ext_app _ _)
  | succ k ih =>
    intro content w i m hk
    rcases hres : get_upload_url crypto svc w with ⟨w1, res⟩
    have ht0 : ∃ t0, w1.log = w.log ++ t0 := by
      have h2 := get_upload_url_log crypto svc w
      rw [hres] at h2
      exact ⟨_, h2⟩
    rw [upload_file.eq_def crypto svc name content w i m, hres]
    cases res with
    | error e => exact ht0
    | ok ticket =>
      simp only [BStream.read, BStream.seek0]
      by_cases hup : (svc.upload w1.nUpload).status < 400
      · rw [if_pos hup]
        exact log_ext_step ht0 (log_ext_app _ _)
      · rw [if_neg hup]
        by_cases hc : (((svc.upload w1.nUpload).status = 401 ∨
            (svc.upload w1.nUpload).status = 503) ∧ i < m)
        · rw [dif_pos hc]
          split
          next w3 e heq =>
            have h4 := congrArg (fun p => p.1.log) heq
            have h5 := (authorize_log crypto svc _).symm.trans h4
            exact log_ext_step ht0 (log_ext_step (log_ext_app _ _) ⟨_, h5.symm⟩)
          next w3 u heq =>
            have h4 := congrArg (fun p => p.1.log) heq
            have h5 := (authorize_log crypto svc _).symm.trans h4
            have hrec := ih { data := content.data, pos := 0 } w3 (i + 1) 3
              (by omega)
            exact log_ext_step ht0
              (log_ext_step (log_ext_app _ _)
                (log_ext_step ⟨_, h5.symm⟩ hrec))
        · rw [dif_neg hc]
          exact log_ext_step ht0 (log_ext_app _ _)

/-- `upload_file` only appends to the log. -/
theorem upload_file_log_extends (crypto : Crypto) (svc : Service)
    (name : String) (content : BStream) (w : World) (i m : Nat) :
    ∃ t, (upload_file crypto svc name content w i m).1.log = w.log ++ t :=
  upload_file_fuel crypto svc name (max m 3 - i) content w i m (Nat.le_refl _)

/-- A list extending `l ++ a :: s` has `a` at index `l.length`. -/
theorem log_lookup_of_ext {L l s : List Request} {a : Request}
    (h : ∃ t, L = (l ++ a :: s) ++ t) : L[l.length]? = some a := by
  obtain ⟨t, ht⟩ := h
  rw [ht, List.append_assoc, List.cons_append]
  exact log_lookup_here l a (s ++ t)

/-- `upload_file` only appends to the log produced by its initial
`get_upload_url` step. -/
theorem upload_file_ext_geturl (crypto : Crypto) (svc : Service)
    (name : String) (content : BStream) (w : World) (i m : Nat) :
    ∃ t, (upload_file crypto svc name content w i m).1.log =
      (get_upload_url crypto svc w).1.log ++ t := by
  rcases hres : get_upload_url crypto svc w with ⟨w1, res⟩
  rw [upload_file.eq_def crypto svc name content w i m, hres]
  cases res with
  | error e => exact ⟨[], (List.append_nil _).symm⟩
  | ok ticket =>
    simp only [BStream.read, BStream.seek0]
    by_cases hup : (svc.upload w1.nUpload).status < 400
    · rw [if_pos hup]
      exact log_ext_app _ _
    · rw [if_neg hup]
      by_cases hc : (((svc.upload w1.nUpload).status = 401 ∨
          (svc.upload w1.nUpload).status = 503) ∧ i < m)
      · rw [dif_pos hc]
        split
        next w3 e heq =>
          have h4 := congrArg (fun p => p.1.log) heq
          have h5 := (authorize_log crypto svc _).symm.trans h4
          exact log_ext_step (log_ext_app _ _) ⟨_, h5.symm⟩
        next w3 u heq =>
          have h4 := congrArg (fun p => p.1.log) heq
          have h5 := (authorize_log crypto svc _).symm.trans h4
          have hrec := upload_file_log_extends crypto svc name
            { data := content.data, pos := 0 } w3 (i + 1) 3
          exact log_ext_step (log_ext_app _ _)
            (log_ext_step ⟨_, h5.symm⟩ hrec)
      · rw [dif_neg hc]
        exact log_ext_app _ _

/-- The first request any `upload_file` call issues is the authorize
request. -/
theorem upload_file_log_head (crypto : Crypto) (svc : Service)
    (name : String) (content : BStream) (w : World) (i m : Nat) :
    ((upload_file crypto svc name content w i m).1.log)[w.log.length]? =
      some (authRequestOf crypto w) := by
  have h2 := get_upload_url_log crypto svc w
  obtain ⟨t, ht⟩ := upload_file_ext_geturl crypto svc name content w i m
  exact log_lookup_of_ext ⟨t, by rw [ht, h2]⟩

/-- C4: every public operation (`get_upload_url`, `upload_file`,
`get_file_info`, `download_file`, `delete_file_version`) calls `authorize`
unconditionally before issuing its own HTTP call, for every client state —
in particular regardless of the token's age and of the stored
reauthorization buffer: the first request each operation appends to the log
is the authorize request, and the following request (present exactly when
authorization succeeded) carries the freshly obtained token. -/
theorem operations_authorize_first (crypto : Crypto) (svc : Service)
    (w : World) (name dname file_id filename : String) (content : BStream)
    (i m : Nat) :
    ((get_upload_url crypto svc w).1.log)[w.log.length]? =
        some (authRequestOf crypto w) ∧
    ((get_upload_url crypto svc w).1.log)[w.log.length + 1]? =
        (if (svc.auth w.nAuth).status < 400 then
          some { kind := .ticket
                 authHeader := (svc.auth w.nAuth).authorizationToken
                 url := (svc.auth w.nAuth).apiUrl ++ B2_API_PREFIX ++
                   "b2_get_upload_url"
                 params := [("bucketId", w.client.bucket_id)] }
        else none) ∧
    ((upload_file crypto svc name content w i m).1.log)[w.log.length]? =
        some (authRequestOf crypto w) ∧
    ((get_file_info crypto svc file_id w).1.log)[w.log.length]? =
        some (authRequestOf crypto w) ∧
    ((get_file_info crypto svc file_id w).1.log)[w.log.length + 1]? =
        (if (svc.auth w.nAuth).status < 400 then
          some { kind := .fileInfo
                 authHeader := (svc.auth w.nAuth).authorizationToken
                 url := (svc.auth w.nAuth).apiUrl ++ B2_API_PREFIX ++
                   "b2_get_file_info"
                 params := [("fileId", file_id)] }
        else none) ∧
    ((download_file crypto svc dname w).1.log)[w.log.length]? =
        some (authRequestOf crypto w) ∧
    ((download_file crypto svc dname w).1.log)[w.log.length + 1]? =
        (if (svc.auth w.nAuth).status < 400 then
          some { kind := .fileDownload
                 authHeader := (svc.auth w.nAuth).authorizationToken
                 url := (svc.auth w.nAuth).downloadUrl ++ "/file/" ++
                   w.client.bucket_name ++ "/" ++ dname }
        else none) ∧
    ((delete_file_version crypto svc filename file_id w).1.log)[
        w.log.length]? = some (authRequestOf crypto w) ∧
    ((delete_file_version crypto svc filename file_id w).1.log)[
        w.log.length + 1]? =
        (if (svc.auth w.nAuth).status < 400 then
          some { kind := .deleteVersion
                 authHeader := (svc.auth w.nAuth).authorizationToken
                 url := (svc.auth w.nAuth).apiUrl ++ B2_API_PREFIX ++
                   "b2_delete_file_version"
                 params := [("fileId", file_id), ("fileName", filename)] }
        else none) := by
  refine ⟨?_, ?_, upload_file_log_head crypto svc name content w i m,
    ?_, ?_, ?_, ?_, ?_, ?_⟩
  · rw [get_upload_url_log]
    exact log_lookup_here _ _ _
  · rw [get_upload_url_log]
    by_cases hA : (svc.auth w.nAuth).status < 400
    · rw [if_pos hA, if_pos hA]
      exact log_lookup_next _ _ _ _
    · rw [if_neg hA, if_neg hA]
      exact log_lookup_none _ _
  · rw [get_file_info_log]
    exact log_lookup_here _ _ _
  · rw [get_file_info_log]
    by_cases hA : (svc.auth w.nAuth).status < 400
    · rw [if_pos hA, if_pos hA]
      exact log_lookup_next _ _ _ _
    · rw [if_neg hA, if_neg hA]
      exact log_lookup_none _ _
  · rw [download_file_log]
    exact log_lookup_here _ _ _
  · rw [download_file_log]
    by_cases hA : (svc.auth w.nAuth).status < 400
    · rw [if_pos hA, if_pos hA]
      exact log_lookup_next _ _ _ _
    · rw [if_neg hA, if_neg hA]
      exact log_lookup_none _ _
  · rw [delete_file_version_log]
    exact log_lookup_here _ _ _
  · rw [delete_file_version_log]
    by_cases hA : (svc.auth w.nAuth).status < 400
    · rw [if_pos hA, if_pos hA]
      exact log_lookup_next _ _ _ _
    · rw [if_neg hA, if_neg hA]
      exact log_lookup_none _ _

/-- A service whose upload POSTs fail three times with distinct statuses and
bodies: 401 "e1", then 503 "e2", then 401 "e3". -/
def svcSeq : Service :=
  svcAll fun n => if n = 0 then ⟨401, "e1"⟩
    else if n = 1 then ⟨503, "e2"⟩ else ⟨401, "e3"⟩

/-- C5: when the upload POST fails with status `s`, the error is intercepted
and a retry performed exactly when `s` is 401 or 503 and the attempt counter
is below the limit (then a second POST happens and its 200 body is
returned); on any other failing status, or with the counter at the limit,
the HTTP error is propagated unchanged after a single POST.  The last
conjunct shows the last error winning without aggregation: three failing
attempts with bodies "e1", "e2", "e3" propagate exactly the third error. -/
theorem upload_retry_condition (s i m : Nat) (hs : 400 ≤ s) :
    (((upload_file cryptoD (svcFirst s) "f.txt" streamD worldD i m).2,
      (upload_file cryptoD (svcFirst s) "f.txt" streamD worldD i m).1.nUpload) =
      (if (s = 401 ∨ s = 503) ∧ i < m then (.ok "ok2", 2)
       else (.error ⟨s, "err"⟩, 1))) ∧
    (upload_file cryptoD svcSeq "f.txt" streamD worldD).2 =
      .error ⟨401, "e3"⟩ ∧
    (upload_file cryptoD svcSeq "f.txt" streamD worldD).1.nUpload = 3 := by
  have hs' : ¬ s < 400 := by omega
  refine ⟨?_, ?_, ?_⟩
  · by_cases hc : ((s = 401 ∨ s = 503) ∧ i < m)
    · rw [if_pos hc]
      simp [upload_file, get_upload_url, authorize, svcFirst, svcAll, authOK,
        ticketOK, cryptoD, worldD, clientD, streamD, BStream.read,
        BStream.seek0, authRequestOf, hs', hc]
    · rw [if_neg hc]
      simp [upload_file, get_upload_url, authorize, svcFirst, svcAll, authOK,
        ticketOK, cryptoD, worldD, clientD, streamD, BStream.read,
        BStream.seek0, authRequestOf, hs', hc]
  · simp [upload_file, get_upload_url, authorize, svcSeq, svcAll, authOK,
      ticketOK, cryptoD, worldD, clientD, streamD, BStream.read,
      BStream.seek0, authRequestOf]
  · simp [upload_file, get_upload_url, authorize, svcSeq, svcAll, authOK,
      ticketOK, cryptoD, worldD, clientD, streamD, BStream.read,
      BStream.seek0, authRequestOf]

/-- Witness for `upload_retry_condition` at `s = 503`, `i = 1`, `m = 3`:
the 503 is intercepted and the second POST's body returned. -/
theorem upload_retry_condition_witness :
    ((upload_file cryptoD (svcFirst 503) "f.txt" streamD worldD 1 3).2,
     (upload_file cryptoD (svcFirst 503) "f.txt" streamD worldD 1 3).1.nUpload) =
      (.ok "ok2", 2) := by
  have h := (upload_retry_condition 503 1 3 (by decide)).1
  simpa using h

/-- Requests in the log of `authorize` are prior requests or the authorize
request itself. -/
theorem authorize_mem {crypto : Crypto} {svc : Service} {w : World}
    {r : Request} (hr : r ∈ (authorize crypto svc w).1.log) :
    r ∈ w.log ∨ r.kind = .auth := by
  rw [authorize_log] at hr
  rcases List.mem_append.mp hr with h | h
  · exact Or.inl h
  · exact Or.inr (by rw [List.mem_singleton.mp h]; rfl)

theorem get_upload_url_mem {crypto : Crypto} {svc : Service} {w : World}
    {r : Request} (hr : r ∈ (get_upload_url crypto svc w).1.log) :
    r ∈ w.log ∨ r.kind = .auth ∨ r.kind = .ticket := by
  rw [get_upload_url_log] at hr
  rcases List.mem_append.mp hr with h | h
  · exact Or.inl h
  · rcases List.mem_cons.mp h with h | h
    · exact Or.inr (Or.inl (by rw [h]; rfl))
    · refine Or.inr (Or.inr ?_)
      by_cases hA : (svc.auth w.nAuth).status < 400
      · rw [if_pos hA] at h
        rw [List.mem_singleton.mp h]
      · rw [if_neg hA] at h
        exact absurd h (List.not_mem_nil r)

theorem geturl_mem_post {crypto : Crypto} {svc : Service} {w w1 : World}
    {res : Except HTTPError Ticket}
    (hres : get_upload_url crypto svc w = (w1, res)) {r : Request}
    (hr : r ∈ w1.log) (hkind : r.kind = .uploadPost) : r ∈ w.log := by
  have hr' : r ∈ (get_upload_url crypto svc w).1.log := by
    rw [hres]; exact hr
  rcases get_upload_url_mem hr' with h | h | h
  · exact h
  · exact absurd (h.symm.trans hkind) (by decide)
  · exact absurd (h.symm.trans hkind) (by decide)

theorem upload_digest_fuel (crypto : Crypto) (svc : Service) (name : String) :
    ∀ (k : Nat) (content : BStream) (w : World) (i m : Nat),
      max m 3 - i ≤ k → content.pos = 0 →
      ∀ r ∈ (upload_file crypto svc name content w i m).1.log,
        r.kind = .uploadPost →
          r ∈ w.log ∨ r.sha1 = crypto.sha1hex content.data := by
  intro k
  induction k with
  | zero =>
    intro content w i m hk hp
    rcases hres : get_upload_url crypto svc w with ⟨w1, res⟩
    rw [upload_file.eq_def crypto svc name content w i m, hres]
    cases res with
    | error e =>
      intro r hr hkind
      exact Or.inl (geturl_mem_post hres hr hkind)
    | ok ticket =>
      simp only [BStream.read, BStream.seek0]
      have hc : ¬ (((svc.upload w1.nUpload).status = 401 ∨
          (svc.upload w1.nUpload).status = 503) ∧ i < m) := by
        intro hcc
        omega
      by_cases hup : (svc.upload w1.nUpload).status < 400
      · rw [if_pos hup]
        intro r hr hkind
        rcases List.mem_append.mp hr with h | h
        · exact Or.inl (geturl_mem_post hres h hkind)
        · right
          rw [List.mem_singleton.mp h]
          simp [hp]
      · rw [if_neg hup, dif_neg hc]
        intro r hr hkind
        rcases List.mem_append.mp hr with h | h
        · exact Or.inl (geturl_mem_post hres h hkind)
        · right
          rw [List.mem_singleton.mp h]
          simp [hp]
  | succ k ih =>
    intro content w i m hk hp
    rcases hres : get_upload_url crypto svc w with ⟨w1, res⟩
    rw [upload_file.eq_def crypto svc name content w i m, hres]
    cases res with
    | error e =>
      intro r hr hkind
      exact Or.inl (geturl_mem_post hres hr hkind)
    | ok ticket =>
      simp only [BStream.read, BStream.seek0]
      by_cases hup : (svc.upload w1.nUpload).status < 400
      · rw [if_pos hup]
        intro r hr hkind
        rcases List.mem_append.mp hr with h | h
        · exact Or.inl (geturl_mem_post hres h hkind)
        · right
          rw [List.mem_singleton.mp h]
          simp [hp]
      · rw [if_neg hup]
        by_cases hc : (((svc.upload w1.nUpload).status = 401 ∨
            (svc.upload w1.nUpload).status = 503) ∧ i < m)
        · rw [dif_pos hc]
          split
          next w3 e heq =>
            intro r hr hkind
            have h5 := (authorize_log crypto svc _).symm.trans
              (congrArg (fun p => p.1.log) heq)
            rw [← h5] at hr
            rcases List.mem_append.mp hr with h | h
            · rcases List.mem_append.mp h with h' | h'
              · exact Or.inl (geturl_mem_post hres h' hkind)
              · right
                rw [List.mem_singleton.mp h']
                simp [hp]
            · have h6 : r.kind = .auth := by
                rw [List.mem_singleton.mp h]; rfl
              exact absurd (h6.symm.trans hkind) (by decide)
          next w3 u heq =>
            intro r hr hkind
            have h5 := (authorize_log crypto svc _).symm.trans
              (congrArg (fun p => p.1.log) heq)
            rcases ih { data := content.data, pos := 0 } w3 (i + 1) 3
                (by omega) rfl r hr hkind with h | h
            · rw [← h5] at h
              rcases List.mem_append.mp h with h' | h'
              · rcases List.mem_append.mp h' with h'' | h''
                · exact Or.inl (geturl_mem_post hres h'' hkind)
                · right
                  rw [List.mem_singleton.mp h'']
                  simp [hp]
              · have h6 : r.kind = .auth := by
                  rw [List.mem_singleton.mp h']; rfl
                exact absurd (h6.symm.trans hkind) (by decide)
            · exact Or.inr h
        · rw [dif_neg hc]
          intro r hr hkind
          rcases List.mem_append.mp hr with h | h
          · exact Or.inl (geturl_mem_post hres h hkind)
          · right
            rw [List.mem_singleton.mp h]
            simp [hp]

/-- C6: for a stream positioned at offset 0 (the documented contract of
`upload_file`), every upload POST of a single `upload_file` call — the first
attempt and all retries — carries the same `X-Bz-Content-Sha1` digest,
namely the SHA-1 of the whole stream content: each attempt reads the stream
to completion for hashing and the stream is repositioned to offset 0 before
each retry, so the digest of attempt 1 equals the digest of attempt 2. -/
theorem upload_digest_stable (crypto : Crypto) (svc : Service)
    (name : String) (content : BStream) (w : World) (i m : Nat)
    (h : content.pos = 0) :
    (∀ r ∈ (upload_file crypto svc name content w i m).1.log,
        r.kind = .uploadPost →
          r ∈ w.log ∨ r.sha1 = crypto.sha1hex content.data) ∧
    (∀ r1 ∈ (upload_file crypto svc name content w i m).1.log,
      ∀ r2 ∈ (upload_file crypto svc name content w i m).1.log,
        r1.kind = .uploadPost → r2.kind = .uploadPost →
          r1 ∉ w.log → r2 ∉ w.log → r1.sha1 = r2.sha1) := by
  have hmain := upload_digest_fuel crypto svc name (max m 3 - i) content w i m
    (Nat.le_refl _) h
  refine ⟨hmain, ?_⟩
  intro r1 h1 r2 h2 hk1 hk2 hn1 hn2
  rcases hmain r1 h1 hk1 with h' | h'
  · exact absurd h' hn1
  · rcases hmain r2 h2 hk2 with h'' | h''
    · exact absurd h'' hn2
    · rw [h', h'']

/-- Witness for `upload_digest_stable`: the two upload POSTs of the concrete
401-then-200 retry run both carry the SHA-1 of the full two-byte stream. -/
theorem upload_digest_stable_witness :
    streamD.pos = 0 ∧
    (∀ r ∈ (upload_file cryptoD svcRetryOnce "f.txt" streamD worldD 1 3).1.log,
        r.kind = .uploadPost →
          r ∈ worldD.log ∨ r.sha1 = cryptoD.sha1hex streamD.data) :=
  ⟨rfl,
    (upload_digest_stable cryptoD svcRetryOnce "f.txt" streamD worldD 1 3
      rfl).1⟩

def World.setBuffer (w : World) (b : Nat) : World :=
  { w with client := { w.client with reauthorization_buffer := b } }

theorem authorize_setBuffer (crypto : Crypto) (svc : Service) (w : World)
    (b : Nat) :
    authorize crypto svc (w.setBuffer b) =
      ((authorize crypto svc w).1.setBuffer b, (authorize crypto svc w).2) := by
  by_cases hA : (svc.auth w.nAuth).status < 400 <;>
    simp [authorize, World.setBuffer, authRequestOf, hA]

theorem get_upload_url_setBuffer (crypto : Crypto) (svc : Service)
    (w : World) (b : Nat) :
    get_upload_url crypto svc (w.setBuffer b) =
      ((get_upload_url crypto svc w).1.setBuffer b,
       (get_upload_url crypto svc w).2) := by
  by_cases hA : (svc.auth w.nAuth).status < 400
  · by_cases hT : (svc.ticket w.nTicket).status < 400 <;>
      simp [get_upload_url, authorize, World.setBuffer, authRequestOf,
        _build_url, hA, hT]
  · simp [get_upload_url, authorize, World.setBuffer, authRequestOf,
      _build_url, hA]

theorem get_file_info_setBuffer (crypto : Crypto) (svc : Service)
    (file_id : String) (w : World) (b : Nat) :
    get_file_info crypto svc file_id (w.setBuffer b) =
      ((get_file_info crypto svc file_id w).1.setBuffer b,
       (get_file_info crypto svc file_id w).2) := by
  by_cases hA : (svc.auth w.nAuth).status < 400
  · by_cases hT : (svc.info w.nInfo).status < 400 <;>
      simp [get_file_info, authorize, World.setBuffer, authRequestOf,
        _build_url, hA, hT]
  · simp [get_file_info, authorize, World.setBuffer, authRequestOf,
      _build_url, hA]

theorem download_file_setBuffer (crypto : Crypto) (svc : Service)
    (name : String) (w : World) (b : Nat) :
    download_file crypto svc name (w.setBuffer b) =
      ((download_file crypto svc name w).1.setBuffer b,
       (download_file crypto svc name w).2) := by
  by_cases hA : (svc.auth w.nAuth).status < 400
  · by_cases hT : (svc.download w.nDownload).status < 400 <;>
      simp [download_file, authorize, World.setBuffer, authRequestOf,
        get_file_url, hA, hT]
  · simp [download_file, authorize, World.setBuffer, authRequestOf,
      get_file_url, hA]

theorem delete_file_version_setBuffer (crypto : Crypto) (svc : Service)
    (filename file_id : String) (w : World) (b : Nat) :
    delete_file_version crypto svc filename file_id (w.setBuffer b) =
      ((delete_file_version crypto svc filename file_id w).1.setBuffer b,
       (delete_file_version crypto svc filename file_id w).2) := by
  by_cases hA : (svc.auth w.nAuth).status < 400
  · by_cases hT : (svc.delete w.nDelete).status < 400 <;>
      simp [delete_file_version, authorize, World.setBuffer, authRequestOf,
        _build_url, hA, hT]
  · simp [delete_file_version, authorize, World.setBuffer, authRequestOf,
      _build_url, hA]

theorem init_buffer (crypto : Crypto) (svc : Service)
    (key_id app_key bucket_id bucket_name : String) (b1 b2 : Nat)
    (user_agent : String) :
    init crypto svc key_id app_key bucket_id bucket_name b1 user_agent =
      ((init crypto svc key_id app_key bucket_id bucket_name b2
          user_agent).1.setBuffer b1,
       (init crypto svc key_id app_key bucket_id bucket_name b2
          user_agent).2) := by
  by_cases hA : (svc.auth 0).status < 400 <;>
    simp [init, authorize, World.setBuffer, authRequestOf, hA]

theorem setBuffer_mk (c : Client) (tm nA nT nU nI nD nDe : Nat)
    (lg : List Request) (b : Nat) :
    (World.mk c tm nA nT nU nI nD nDe lg).setBuffer b =
      World.mk { c with reauthorization_buffer := b } tm nA nT nU nI nD nDe
        lg := rfl

theorem setBuffer_client (w : World) (b : Nat) :
    (w.setBuffer b).client = { w.client with reauthorization_buffer := b } :=
  rfl

theorem setBuffer_time (w : World) (b : Nat) :
    (w.setBuffer b).time = w.time := rfl

theorem setBuffer_nAuth (w : World) (b : Nat) :
    (w.setBuffer b).nAuth = w.nAuth := rfl

theorem setBuffer_nTicket (w : World) (b : Nat) :
    (w.setBuffer b).nTicket = w.nTicket := rfl

theorem setBuffer_nUpload (w : World) (b : Nat) :
    (w.setBuffer b).nUpload = w.nUpload := rfl

theorem setBuffer_nInfo (w : World) (b : Nat) :
    (w.setBuffer b).nInfo = w.nInfo := rfl

theorem setBuffer_nDownload (w : World) (b : Nat) :
    (w.setBuffer b).nDownload = w.nDownload := rfl

theorem setBuffer_nDelete (w : World) (b : Nat) :
    (w.setBuffer b).nDelete = w.nDelete := rfl

theorem setBuffer_log (w : World) (b : Nat) :
    (w.setBuffer b).log = w.log := rfl

theorem upload_file_setBuffer_fuel (crypto : Crypto) (svc : Service)
    (name : String) :
    ∀ (k : Nat) (content : BStream) (w : World) (i m b : Nat),
      max m 3 - i ≤ k →
      upload_file crypto svc name content (w.setBuffer b) i m =
        ((upload_file crypto svc name content w i m).1.setBuffer b,
         (upload_file crypto svc name content w i m).2) := by
  intro k
  induction k with
  | zero =>
    intro content w i m b hk
    rw [upload_file.eq_def crypto svc name content (World.setBuffer w b) i m,
      upload_file.eq_def crypto svc name content w i m]
    by_cases hA : (svc.auth w.nAuth).status < 400
    · by_cases hT : (svc.ticket w.nTicket).status < 400
      · by_cases hup : (svc.upload w.nUpload).status < 400
        · simp [get_upload_url, authorize, World.setBuffer, authRequestOf,
            _build_url, BStream.read, BStream.seek0, hA, hT, hup]
        · have hcnd : ¬ (((svc.upload w.nUpload).status = 401 ∨
              (svc.upload w.nUpload).status = 503) ∧ i < m) := by
            intro hcc
            omega
          simp [get_upload_url, authorize, World.setBuffer, authRequestOf,
            _build_url, BStream.read, BStream.seek0, hA, hT, hup, hcnd]
      · simp [get_upload_url, authorize, World.setBuffer, authRequestOf,
          _build_url, BStream.read, BStream.seek0, hA, hT]
    · simp [get_upload_url, authorize, World.setBuffer, authRequestOf,
        _build_url, BStream.read, BStream.seek0, hA]
  | succ k ih =>
    intro content w i m b hk
    rw [upload_file.eq_def crypto svc name content (World.setBuffer w b) i m,
      upload_file.eq_def crypto svc name content w i m]
    by_cases hA : (svc.auth w.nAuth).status < 400
    · by_cases hT : (svc.ticket w.nTicket).status < 400
      · by_cases hup : (svc.upload w.nUpload).status < 400
        · simp [get_upload_url, authorize, World.setBuffer, authRequestOf,
            _build_url, BStream.read, BStream.seek0, hA, hT, hup]
        · by_cases hcnd : (((svc.upload w.nUpload).status = 401 ∨
              (svc.upload w.nUpload).status = 503) ∧ i < m)
          · by_cases hA2 : (svc.auth (w.nAuth + 1)).status < 400
            · simp [get_upload_url, authorize, authRequestOf, _build_url,
                BStream.read, BStream.seek0, hA, hT, hup, hcnd, hA2,
                setBuffer_mk, setBuffer_client, setBuffer_time,
                setBuffer_nAuth, setBuffer_nTicket, setBuffer_nUpload,
                setBuffer_nInfo, setBuffer_nDownload, setBuffer_nDelete,
                setBuffer_log]
              exact ih { data := content.data, pos := 0 }
                { client :=
                    { key_id := w.client.key_id, app_key := w.client.app_key
                      bucket_id := w.client.bucket_id
                      bucket_name := w.client.bucket_name
                      reauthorization_buffer := w.client.reauthorization_buffer
                      user_agent := w.client.user_agent
                      base_url := (svc.auth (w.nAuth + 1)).apiUrl
                      download_url := (svc.auth (w.nAuth + 1)).downloadUrl
                      authorization_token :=
                        (svc.auth (w.nAuth + 1)).authorizationToken
                      authorized_at := w.time }
                  time := w.time, nAuth := w.nAuth + 1 + 1
                  nTicket := w.nTicket + 1, nUpload := w.nUpload + 1
                  nInfo := w.nInfo, nDownload := w.nDownload
                  nDelete := w.nDelete
                  log := w.log ++
                    [{ kind := ReqKind.auth
                       authHeader := "Basic " ++
                         crypto.b64 (w.client.key_id ++ ":" ++ w.client.app_key)
                       url := AUTHORIZE_URL },
                     { kind := ReqKind.ticket
                       authHeader := (svc.auth w.nAuth).authorizationToken
                       url := (svc.auth w.nAuth).apiUrl ++ B2_API_PREFIX ++
                         "b2_get_upload_url"
                       params := [("bucketId", w.client.bucket_id)] },
                     { kind := ReqKind.uploadPost
                       authHeader := (svc.ticket w.nTicket).authorizationToken
                       url := (svc.ticket w.nTicket).uploadUrl
                       fileName := name
                       sha1 := crypto.sha1hex
                         (List.drop content.pos content.data)
                       body := content.data },
                     { kind := ReqKind.auth
                       authHeader := "Basic " ++
                         crypto.b64 (w.client.key_id ++ ":" ++ w.client.app_key)
                       url := AUTHORIZE_URL }] }
                (i + 1) 3 b (by omega)
            · simp [get_upload_url, authorize, World.setBuffer, authRequestOf,
                _build_url, BStream.read, BStream.seek0, hA, hT, hup, hcnd,
                hA2]
          · simp [get_upload_url, authorize, World.setBuffer, authRequestOf,
              _build_url, BStream.read, BStream.seek0, hA, hT, hup, hcnd]
      · simp [get_upload_url, authorize, World.setBuffer, authRequestOf,
          _build_url, BStream.read, BStream.seek0, hA, hT]
    · simp [get_upload_url, authorize, World.setBuffer, authRequestOf,
        _build_url, BStream.read, BStream.seek0, hA]

/-- C9: the `reauthorization_buffer` value is stored at construction and
never consulted: constructing with buffer `b1` instead of `b2` yields the
same client except for the stored field, and every public operation run on a
state whose buffer was replaced by an arbitrary `b` produces the identical
result and identical state apart from that same stored field. -/
theorem reauthorization_buffer_inert (crypto : Crypto) (svc : Service)
    (w : World) (b b1 b2 : Nat)
    (key_id app_key bucket_id bucket_name user_agent : String)
    (name dname file_id filename : String) (content : BStream) (i m : Nat) :
    init crypto svc key_id app_key bucket_id bucket_name b1 user_agent =
      ((init crypto svc key_id app_key bucket_id bucket_name b2
          user_agent).1.setBuffer b1,
       (init crypto svc key_id app_key bucket_id bucket_name b2
          user_agent).2) ∧
    get_upload_url crypto svc (w.setBuffer b) =
      ((get_upload_url crypto svc w).1.setBuffer b,
       (get_upload_url crypto svc w).2) ∧
    upload_file crypto svc name content (w.setBuffer b) i m =
      ((upload_file crypto svc name content w i m).1.setBuffer b,
       (upload_file crypto svc name content w i m).2) ∧
    get_file_info crypto svc file_id (w.setBuffer b) =
      ((get_file_info crypto svc file_id w).1.setBuffer b,
       (get_file_info crypto svc file_id w).2) ∧
    download_file crypto svc dname (w.setBuffer b) =
      ((download_file crypto svc dname w).1.setBuffer b,
       (download_file crypto svc dname w).2) ∧
    delete_file_version crypto svc filename file_id (w.setBuffer b) =
      ((delete_file_version crypto svc filename file_id w).1.setBuffer b,
       (delete_file_version crypto svc filename file_id w).2) :=
  ⟨init_buffer crypto svc key_id app_key bucket_id bucket_name b1 b2
      user_agent,
    get_upload_url_setBuffer crypto svc w b,
    upload_file_setBuffer_fuel crypto svc name (max m 3 - i) content w i m b
      (Nat.le_refl _),
    get_file_info_setBuffer crypto svc file_id w b,
    download_file_setBuffer crypto svc dname w b,
    delete_file_version_setBuffer crypto svc filename file_id w b⟩
